import Mathlib

/-!
Verification of the kundali2 repository's clients and of the backend engine
contracts they rely on.

The repository ships a React web frontend and a React Native iOS client; the
astrological backend is reached only over HTTP.  Client-side logic (outlook
bucketing, response-envelope handling, yoga-list extraction, input validation,
request-body construction) is embedded here directly from the JavaScript /
TypeScript sources.  Backend behaviour that the repository does not contain
(transit aggregation, dasha computation, house strength, chart calculation,
timeline summaries) is modelled from the specification, with each such
definition marked `Modelled from the spec:` in its doc comment.

JavaScript numbers are embedded as `ℚ` (all values involved are exact
decimals), JS strings as `String`, absent / `undefined` fields as `Option`,
and `NaN`-producing parses as an explicit constructor.
-/

namespace Kundali

/-! ### C1: outlook bands shared by the clients

From `src/frontend/src/EnhancedTransitAnalysis.js` (`renderTimelineTab`,
lines 886-898) and `src/unnamed/part_009` (iOS ResultsScreen, lines 37-42). -/

/-- `getOutlookColor` of `EnhancedTransitAnalysis.js` (lines 886-891). -/
def getOutlookColor (score : ℚ) : String :=
  if score ≥ 70 then "#4ade80"
  else if score ≥ 50 then "#fbbf24"
  else if score ≥ 30 then "#fb923c"
  else "#f87171"

/-- `getOutlookLabel` of `EnhancedTransitAnalysis.js` (lines 893-898). -/
def getOutlookLabel (score : ℚ) : String :=
  if score ≥ 70 then "Favorable"
  else if score ≥ 50 then "Above Average"
  else if score ≥ 30 then "Below Average"
  else "Challenging"

/-- `getStrengthColor` of the iOS `ResultsScreen` (`src/unnamed/part_009`,
lines 37-42). -/
def iosGetStrengthColor (pct : ℚ) : String :=
  if pct ≥ 70 then "#4ade80"
  else if pct ≥ 50 then "#fbbf24"
  else if pct ≥ 30 then "#fb923c"
  else "#f87171"

end Kundali

namespace Kundali

/-- C1: the timeline/outlook classification assigns "Favorable" iff the score
is ≥ 70, "Above Average" iff 50 ≤ score < 70, "Below Average" iff
30 ≤ score < 50 and "Challenging" iff score < 30; the web `getOutlookColor`
and the iOS `getStrengthColor` apply exactly the same three cutoffs and agree
on the band (same colour) for every input, and the colour always matches the
label's band. -/
theorem C1_outlook_bands (s : ℚ) :
    (getOutlookLabel s = "Favorable" ↔ 70 ≤ s) ∧
    (getOutlookLabel s = "Above Average" ↔ 50 ≤ s ∧ s < 70) ∧
    (getOutlookLabel s = "Below Average" ↔ 30 ≤ s ∧ s < 50) ∧
    (getOutlookLabel s = "Challenging" ↔ s < 30) ∧
    getOutlookColor s = iosGetStrengthColor s ∧
    (getOutlookColor s = "#4ade80" ↔ getOutlookLabel s = "Favorable") ∧
    (getOutlookColor s = "#fbbf24" ↔ getOutlookLabel s = "Above Average") ∧
    (getOutlookColor s = "#fb923c" ↔ getOutlookLabel s = "Below Average") ∧
    (getOutlookColor s = "#f87171" ↔ getOutlookLabel s = "Challenging") := by
  unfold getOutlookLabel getOutlookColor iosGetStrengthColor
  split_ifs with h1 h2 h3 <;>
    refine ⟨?_, ?_, ?_, ?_, rfl, ?_, ?_, ?_, ?_⟩ <;>
    simp <;>
    first
      | linarith
      | (intro; linarith)
      | (constructor <;> intro <;> linarith)
      | (constructor <;> linarith)

/-! ### C2: response-envelope handling of the transit fetch handlers

From `analyzeTransits` in `src/frontend/src/TransitAnalysis.js` (lines
229-268) and in `src/frontend/src/EnhancedTransitAnalysis.js` (lines
382-434).  Both handlers run `setLoading(true); setError(null)`, await the
fetch and `response.json()` inside `try`, branch on `result.success`, fall
back with `result.error || 'Failed to analyze transits'`, catch every thrown
exception with `setError('Failed to connect to server: ' + err.message)` and
reset the loading flag in `finally`. -/

/-- JS `x || d` for an optional string `x`: `undefined` and `""` are falsy. -/
def jsOrString (x : Option String) (d : String) : String :=
  match x with
  | none => d
  | some s => if s = "" then d else s

/-- The JSON body of a `/transit/analyze` response as read by the handler:
`success` (declared `bool` by the envelope contract), optional `error`
string, and the `data` payload (abstract, of type `α`). -/
structure TransitResponse (α : Type) where
  success : Bool
  error : Option String
  data : Option α
  deriving DecidableEq

/-- Outcome of the awaited fetch: a parsed JSON body, or a thrown
exception (network failure, JSON parse failure) with its message. -/
inductive FetchOutcome (α : Type) where
  | ok (r : TransitResponse α)
  | threw (msg : String)
  deriving DecidableEq

/-- The component state touched by `analyzeTransits`
(`transitData`, `error`, `loading`). -/
structure FetchState (α : Type) where
  transitData : Option α
  error : Option String
  loading : Bool
  deriving DecidableEq

/-- `analyzeTransits` of `TransitAnalysis.js` (lines 229-268) as a state
transition on the component state, given the outcome of the awaited fetch. -/
def analyzeTransitsStep {α : Type} (o : FetchOutcome α) (s : FetchState α) :
    FetchState α :=
  let s1 : FetchState α := { s with loading := true, error := none }
  match o with
  | .ok r =>
      if r.success then
        { s1 with transitData := r.data, loading := false }
      else
        { s1 with error := some (jsOrString r.error "Failed to analyze transits"),
                  loading := false }
  | .threw m =>
      { s1 with error := some ("Failed to connect to server: " ++ m),
                loading := false }

/-- `native_data` of an enhanced transit response
(`EnhancedTransitAnalysis.js` lines 418-419). -/
structure NativeData where
  natal_moon_sign : String
  natal_moon_nakshatra : String
  deriving DecidableEq

/-- The JSON body of a `/transit/enhanced` response, with the fields the
success branch of `analyzeTransits` reads (lines 414-425); planet results
are abstract, of type `α`. -/
structure EnhancedResponse (α : Type) where
  success : Bool
  error : Option String
  native_data : NativeData
  transit_date : String
  planet_results : List α
  overall_summary : String
  favorable_planets : List String
  unfavorable_planets : List String
  deriving DecidableEq

/-- The compatibility record the enhanced handler stores via
`setTransitData` on success (`EnhancedTransitAnalysis.js` lines 417-425). -/
structure CompatTransitData (α : Type) where
  natal_moon_sign : String
  natal_moon_nakshatra : String
  transit_date : String
  analysis_results : List α
  summary : String
  favorable_planets : List String
  unfavorable_planets : List String
  deriving DecidableEq

/-- The compatibility record built from an enhanced response
(`EnhancedTransitAnalysis.js` lines 417-425). -/
def mkCompat {α : Type} (r : EnhancedResponse α) : CompatTransitData α :=
  { natal_moon_sign := r.native_data.natal_moon_sign
    natal_moon_nakshatra := r.native_data.natal_moon_nakshatra
    transit_date := r.transit_date
    analysis_results := r.planet_results
    summary := r.overall_summary
    favorable_planets := r.favorable_planets
    unfavorable_planets := r.unfavorable_planets }

/-- Component state touched by the enhanced `analyzeTransits`
(`enhancedData`, `transitData`, `error`, `loading`). -/
structure EnhFetchState (α : Type) where
  enhancedData : Option (EnhancedResponse α)
  transitData : Option (CompatTransitData α)
  error : Option String
  loading : Bool
  deriving DecidableEq

/-- Outcome of the awaited enhanced fetch. -/
inductive EnhFetchOutcome (α : Type) where
  | ok (r : EnhancedResponse α)
  | threw (msg : String)
  deriving DecidableEq

/-- `analyzeTransits` of `EnhancedTransitAnalysis.js` (lines 382-434) as a
state transition. -/
def enhancedAnalyzeStep {α : Type} (o : EnhFetchOutcome α)
    (s : EnhFetchState α) : EnhFetchState α :=
  let s1 : EnhFetchState α := { s with loading := true, error := none }
  match o with
  | .ok r =>
      if r.success then
        { s1 with enhancedData := some r, transitData := some (mkCompat r),
                  loading := false }
      else
        { s1 with error := some (jsOrString r.error "Failed to analyze transits"),
                  loading := false }
  | .threw m =>
      { s1 with error := some ("Failed to connect to server: " ++ m),
                loading := false }

/-- C2 counterexample: the claim says that on a non-success response the
user-visible error text is set to `r.error` whenever it is present, with the
fixed fallback used only when `r.error` is absent.  On the response body
`{success: false, error: ""}` the handler instead sets the fallback text
(JS `result.error || '…'` treats the empty string as falsy), so the stored
error is not `some ""`. -/
theorem C2_counterexample :
    (analyzeTransitsStep (α := Unit)
        (.ok { success := false, error := some "", data := none })
        { transitData := none, error := none, loading := false }).error
      = some "Failed to analyze transits" ∧
    (analyzeTransitsStep (α := Unit)
        (.ok { success := false, error := some "", data := none })
        { transitData := none, error := none, loading := false }).error
      ≠ some "" := by
  constructor
  · rfl
  · decide

/-- C2 (amended): for every JSON response body `r` from a transit endpoint,
both web transit handlers treat `r` as success iff `r.success` is true: on
success they store the payload for rendering (the basic handler stores
`r.data`, the enhanced handler stores the response and its compatibility
record); on non-success they set the user-visible error text to `r.error`
when it is a non-empty string, and to the fixed fallback
"Failed to analyze transits" when `r.error` is absent **or the empty
string**, leaving the previously stored transit data unchanged; in every
case, including a thrown network exception, the handler terminates normally
(it is a total state transition) with the loading flag set back to false. -/
theorem C2_envelope_handling {α : Type} (s : FetchState α)
    (t : EnhFetchState α) (r : TransitResponse α) (q : EnhancedResponse α)
    (m : String) :
    (analyzeTransitsStep (.ok r) s).loading = false ∧
    (analyzeTransitsStep (.threw m) s).loading = false ∧
    (r.success = true →
      (analyzeTransitsStep (.ok r) s).transitData = r.data ∧
      (analyzeTransitsStep (.ok r) s).error = none) ∧
    (r.success = false →
      (analyzeTransitsStep (.ok r) s).transitData = s.transitData ∧
      (analyzeTransitsStep (.ok r) s).error =
        some (match r.error with
              | none => "Failed to analyze transits"
              | some e => if e = "" then "Failed to analyze transits" else e)) ∧
    ((analyzeTransitsStep (.threw m) s).transitData = s.transitData ∧
      (analyzeTransitsStep (.threw m) s).error =
        some ("Failed to connect to server: " ++ m)) ∧
    (enhancedAnalyzeStep (.ok q) t).loading = false ∧
    (enhancedAnalyzeStep (.threw m) t).loading = false ∧
    (q.success = true →
      (enhancedAnalyzeStep (.ok q) t).enhancedData = some q ∧
      (enhancedAnalyzeStep (.ok q) t).transitData = some (mkCompat q) ∧
      (enhancedAnalyzeStep (.ok q) t).error = none) ∧
    (q.success = false →
      (enhancedAnalyzeStep (.ok q) t).transitData = t.transitData ∧
      (enhancedAnalyzeStep (.ok q) t).enhancedData = t.enhancedData ∧
      (enhancedAnalyzeStep (.ok q) t).error =
        some (match q.error with
              | none => "Failed to analyze transits"
              | some e => if e = "" then "Failed to analyze transits" else e)) ∧
    ((enhancedAnalyzeStep (.threw m) t).transitData = t.transitData ∧
      (enhancedAnalyzeStep (.threw m) t).error =
        some ("Failed to connect to server: " ++ m)) := by
  refine ⟨?_, rfl, ?_, ?_, ⟨rfl, rfl⟩, ?_, rfl, ?_, ?_, ⟨rfl, rfl⟩⟩
  · by_cases h : r.success <;> simp [analyzeTransitsStep, h]
  · intro h
    simp [analyzeTransitsStep, h]
  · intro h
    simp only [analyzeTransitsStep, h, if_false, Bool.false_eq_true]
    refine ⟨trivial, ?_⟩
    cases he : r.error <;> simp [jsOrString]
  · by_cases h : q.success <;> simp [enhancedAnalyzeStep, h]
  · intro h
    simp [enhancedAnalyzeStep, h]
  · intro h
    simp only [enhancedAnalyzeStep, h, if_false, Bool.false_eq_true]
    refine ⟨trivial, trivial, ?_⟩
    cases he : q.error <;> simp [jsOrString]

/-- Witness for C2: the amended theorem applied at a concrete successful
response and a concrete failing response. -/
theorem C2_envelope_handling_witness :
    (analyzeTransitsStep (α := Unit)
        (.ok { success := true, error := none, data := some () })
        { transitData := none, error := none, loading := true }).transitData
      = some () ∧
    (analyzeTransitsStep (α := Unit)
        (.ok { success := false, error := none, data := some () })
        { transitData := none, error := none, loading := true }).error
      = some "Failed to analyze transits" := by
  have h := C2_envelope_handling (α := Unit)
    { transitData := none, error := none, loading := true }
    { enhancedData := none, transitData := none, error := none, loading := true }
    { success := true, error := none, data := some () }
    { success := true, error := none,
      native_data := { natal_moon_sign := "", natal_moon_nakshatra := "" },
      transit_date := "", planet_results := [], overall_summary := "",
      favorable_planets := [], unfavorable_planets := [] }
    "boom"
  have h2 := C2_envelope_handling (α := Unit)
    { transitData := none, error := none, loading := true }
    { enhancedData := none, transitData := none, error := none, loading := true }
    { success := false, error := none, data := some () }
    { success := true, error := none,
      native_data := { natal_moon_sign := "", natal_moon_nakshatra := "" },
      transit_date := "", planet_results := [], overall_summary := "",
      favorable_planets := [], unfavorable_planets := [] }
    "boom"
  exact ⟨(h.2.2.1 rfl).1, ((h2.2.2.2.1 rfl).2).trans rfl⟩

/-! ### C4: yoga list extraction and rendering

From `YogaList` in `src/unnamed/part_004` (lines 240-262). -/

/-- A yoga record as consumed by `YogaList`: only `is_present` drives the
rendering filter; `name` and `strength` are carried for identity.  An absent
`is_present` field is `none`. -/
structure YogaRec where
  name : String
  strength : Option String
  is_present : Option Bool
  deriving DecidableEq

/-- A yoga-detection payload as sniffed by `YogaList` (lines 248-259):
either the payload itself is an array, or it is an object whose `all_yogas`
/ `detected_yogas` fields may be arrays and whose `yogas` field may be a
dictionary of category → array (modelled as an association list preserving
insertion order, as `Object.values` does). -/
inductive YogaPayload where
  | arr (l : List YogaRec)
  | obj (all_yogas : Option (List YogaRec))
        (detected_yogas : Option (List YogaRec))
        (yogas : Option (List (String × List YogaRec)))
  deriving DecidableEq

/-- The shape-sniffing cascade of `YogaList` (lines 248-259): `all_yogas`
when it is an array, else `detected_yogas` when it is an array, else the
payload itself when it is an array, else `Object.values(yogas.yogas).flat()`
when `yogas.yogas` is an object, else the empty list. -/
def extractYogaList : YogaPayload → List YogaRec
  | .arr l => l
  | .obj a d y =>
      match a with
      | some l => l
      | none =>
          match d with
          | some l => l
          | none =>
              match y with
              | some dict => (dict.map Prod.snd).flatten
              | none => []

/-- The rendering filter of `YogaList` (line 262):
`yogaList.filter(y => y.is_present !== false)`. -/
def renderedYogas (p : YogaPayload) : List YogaRec :=
  (extractYogaList p).filter (fun y => y.is_present ≠ some false)

/-- C4: `YogaList` renders exactly the records with `is_present !== false`,
drawn from `all_yogas` when it is an array, else `detected_yogas` when it is
an array, else the payload itself when it is an array, else the concatenated
value lists of the `yogas` dictionary; the array shape `{all_yogas: [...]}`
and the category-dictionary shape `{yogas: {...}}` carrying the same records
render the same list, and a record with no `is_present` field is rendered as
present. -/
theorem C4_yoga_list (l : List YogaRec) (d : Option (List YogaRec))
    (y : Option (List (String × List YogaRec)))
    (dict : List (String × List YogaRec)) (r : YogaRec) :
    renderedYogas (.obj (some l) d y)
      = l.filter (fun q => q.is_present ≠ some false) ∧
    renderedYogas (.obj none (some l) y)
      = l.filter (fun q => q.is_present ≠ some false) ∧
    renderedYogas (.arr l)
      = l.filter (fun q => q.is_present ≠ some false) ∧
    renderedYogas (.obj none none (some dict))
      = ((dict.map Prod.snd).flatten).filter (fun q => q.is_present ≠ some false) ∧
    renderedYogas (.obj none none none) = [] ∧
    renderedYogas (.obj (some ((dict.map Prod.snd).flatten)) none none)
      = renderedYogas (.obj none none (some dict)) ∧
    (r ∈ l → r.is_present = none → r ∈ renderedYogas (.obj (some l) d y)) ∧
    (r ∈ renderedYogas (.obj (some l) d y) ↔
      r ∈ l ∧ r.is_present ≠ some false) := by
  refine ⟨rfl, rfl, rfl, rfl, rfl, rfl, ?_, ?_⟩
  · intro hm hp
    simp [renderedYogas, extractYogaList, List.mem_filter, hm, hp]
  · simp [renderedYogas, extractYogaList, List.mem_filter]

/-- Witness for C4: the theorem applied at a concrete payload and record. -/
theorem C4_yoga_list_witness :
    ({ name := "Gaja Kesari", strength := some "Strong", is_present := none } : YogaRec)
      ∈ renderedYogas (.obj
          (some [{ name := "Gaja Kesari", strength := some "Strong",
                   is_present := none }]) none none) := by
  have h := C4_yoga_list
    [{ name := "Gaja Kesari", strength := some "Strong", is_present := none }]
    none none []
    { name := "Gaja Kesari", strength := some "Strong", is_present := none }
  exact h.2.2.2.2.2.2.1 (by decide) rfl

/-! ### C9: request bodies fix `second = 0` and `ayanamsa = "lahiri"`

From `App.handleFormSubmit` in `src/unnamed/part_003` (lines 57-71), from
`HomeScreen.handleSubmit` in `src/kundali-ios/src/screens/HomeScreen.tsx`
(lines 84-94) and from the `birthData` `useMemo` of the iOS `ResultsScreen`
in `src/unnamed/part_009` (lines 254-264). -/

/-- The request body each client builds and sends.  The numeric fields carry
the result of `parseInt` / `parseFloat`; `Option` on the date fields allows
a `NaN` parse (serialized as `null` by `JSON.stringify`). -/
structure BirthBody where
  year : Option Int
  month : Option Int
  day : Option Int
  hour : Option Int
  minute : Option Int
  second : Int
  lat : ℚ
  lon : ℚ
  ayanamsa : String
  deriving DecidableEq

/-- The raw form fields of the web `InputForm` as read by
`App.handleFormSubmit`. -/
structure WebForm where
  year : String
  month : String
  day : String
  hour : String
  minute : String
  lat : String
  lon : String
  deriving DecidableEq

/-- The `birthData` object of `App.handleFormSubmit` (`src/unnamed/part_003`
lines 61-71); `pInt` and `pFloat` are JS `parseInt` / `parseFloat`, passed
in abstractly (a `none` result is a `NaN` parse). -/
def webBirthData (pInt : String → Option Int) (pFloat : String → ℚ)
    (f : WebForm) : BirthBody :=
  { year := pInt f.year
    month := pInt f.month
    day := pInt f.day
    hour := pInt f.hour
    minute := pInt f.minute
    second := 0
    lat := pFloat f.lat
    lon := pFloat f.lon
    ayanamsa := "lahiri" }

/-- A city entry of the iOS city list (`lat`/`lon` stored as strings). -/
structure City where
  name : String
  lat : String
  lon : String
  deriving DecidableEq

/-- The `birthData` object of `HomeScreen.handleSubmit`
(`HomeScreen.tsx` lines 84-94). -/
def iosBirthData (pInt : String → Option Int) (pFloat : String → ℚ)
    (year month day hour minute : String) (city : City) : BirthBody :=
  { year := pInt year
    month := pInt month
    day := pInt day
    hour := pInt hour
    minute := pInt minute
    second := 0
    lat := pFloat city.lat
    lon := pFloat city.lon
    ayanamsa := "lahiri" }

/-- The `birthData` `useMemo` of the iOS `ResultsScreen`
(`src/unnamed/part_009` lines 254-264): date/time/place are copied from
`chartData.birth_data`, `second` and `ayanamsa` are hard-coded. -/
def resultsBirthData (bd : BirthBody) : BirthBody :=
  { year := bd.year
    month := bd.month
    day := bd.day
    hour := bd.hour
    minute := bd.minute
    second := 0
    lat := bd.lat
    lon := bd.lon
    ayanamsa := "lahiri" }

/-- C9: every request body built by the web `App`, the iOS `HomeScreen` and
the iOS `ResultsScreen` has `second = 0` and `ayanamsa = "lahiri"`,
regardless of what the user entered (for every form content, parse
behaviour, city and stored chart data). -/
theorem C9_fixed_second_and_ayanamsa (pInt : String → Option Int)
    (pFloat : String → ℚ) (f : WebForm)
    (year month day hour minute : String) (city : City) (bd : BirthBody) :
    (webBirthData pInt pFloat f).second = 0 ∧
    (webBirthData pInt pFloat f).ayanamsa = "lahiri" ∧
    (iosBirthData pInt pFloat year month day hour minute city).second = 0 ∧
    (iosBirthData pInt pFloat year month day hour minute city).ayanamsa
      = "lahiri" ∧
    (resultsBirthData bd).second = 0 ∧
    (resultsBirthData bd).ayanamsa = "lahiri" :=
  ⟨rfl, rfl, rfl, rfl, rfl, rfl⟩

/-! ### C10: iOS `HomeScreen` input validation

From `validateInputs` (lines 39-77) and `handleSubmit` (lines 79-119) of
`src/kundali-ios/src/screens/HomeScreen.tsx`.  Each text field is read as a
string; `parseInt` of a non-empty string either yields an integer or `NaN`,
and every comparison against `NaN` is false in JS. -/

/-- A text field as seen by `validateInputs`: empty string, a string whose
`parseInt` yields the integer `n`, or a non-empty string whose `parseInt`
yields `NaN`. -/
inductive JsField where
  | empty
  | num (n : Int)
  | nan
  deriving DecidableEq

/-- JS falsiness of the raw field string (`!year` is true exactly for the
empty string here). -/
def JsField.isEmpty : JsField → Bool
  | .empty => true
  | _ => false

/-- The `parseInt` result of the field (`none` is `NaN`). -/
def JsField.parsed : JsField → Option Int
  | .num n => some n
  | _ => none

/-- JS `parseInt(field) < lo`: false whenever the parse is `NaN`
(`parseInt('') ` is also `NaN`). -/
def JsField.ltB : JsField → Int → Bool
  | .num n, lo => n < lo
  | _, _ => false

/-- JS `parseInt(field) > hi`: false whenever the parse is `NaN`. -/
def JsField.gtB : JsField → Int → Bool
  | .num n, hi => hi < n
  | _, _ => false

/-- `validateInputs` of `HomeScreen.tsx` (lines 39-77): emptiness alert
first, then the five range alerts `v < lo || v > hi` on the parsed values. -/
def validateInputs (y m d h mi : JsField) : Bool :=
  if y.isEmpty || m.isEmpty || d.isEmpty || h.isEmpty || mi.isEmpty then false
  else if y.ltB 1900 || y.gtB 2100 then false
  else if m.ltB 1 || m.gtB 12 then false
  else if d.ltB 1 || d.gtB 31 then false
  else if h.ltB 0 || h.gtB 23 then false
  else if mi.ltB 0 || mi.gtB 59 then false
  else true

/-- Result of `handleSubmit`: an alert with no network request, or the four
parallel API calls carrying the built body. -/
inductive SubmitAction where
  | alerted
  | requested (body : BirthBody)
  deriving DecidableEq

/-- `handleSubmit` of `HomeScreen.tsx` (lines 79-119): returns early when
`validateInputs` fails, otherwise builds `birthData` and issues the four
API calls with it. -/
def handleSubmit (pFloat : String → ℚ) (y m d h mi : JsField) (city : City) :
    SubmitAction :=
  if validateInputs y m d h mi then
    .requested
      { year := y.parsed
        month := m.parsed
        day := d.parsed
        hour := h.parsed
        minute := mi.parsed
        second := 0
        lat := pFloat city.lat
        lon := pFloat city.lon
        ayanamsa := "lahiri" }
  else .alerted

/-- The validity predicate asserted by the claim: every field is non-empty
and parses to an integer lying in its range. -/
def claimedValid (y m d h mi : JsField) : Prop :=
  (∃ n, y = .num n ∧ 1900 ≤ n ∧ n ≤ 2100) ∧
  (∃ n, m = .num n ∧ 1 ≤ n ∧ n ≤ 12) ∧
  (∃ n, d = .num n ∧ 1 ≤ n ∧ n ≤ 31) ∧
  (∃ n, h = .num n ∧ 0 ≤ n ∧ n ≤ 23) ∧
  (∃ n, mi = .num n ∧ 0 ≤ n ∧ n ≤ 59)

instance (y m d h mi : JsField) : Decidable (claimedValid y m d h mi) := by
  unfold claimedValid
  have inst : ∀ (f : JsField) (lo hi : Int),
      Decidable (∃ n, f = .num n ∧ lo ≤ n ∧ n ≤ hi) := by
    intro f lo hi
    cases f with
    | empty => exact .isFalse (by rintro ⟨n, h, -⟩; cases h)
    | nan => exact .isFalse (by rintro ⟨n, h, -⟩; cases h)
    | num n =>
        exact decidable_of_iff (lo ≤ n ∧ n ≤ hi)
          ⟨fun hh => ⟨n, rfl, hh⟩, by rintro ⟨k, hk, hh⟩; cases hk; exact hh⟩
  exact instDecidableAnd

/-- A single range check `!(v < lo || v > hi)` succeeds iff the parsed value,
when it is an integer, lies in `[lo, hi]` (a `NaN` parse always passes). -/
theorem rangeCheck_iff (f : JsField) (lo hi : Int) :
    (f.ltB lo = false ∧ f.gtB hi = false) ↔
      (∀ n, f = .num n → lo ≤ n ∧ n ≤ hi) := by
  cases f with
  | empty => simp [JsField.ltB, JsField.gtB]
  | nan => simp [JsField.ltB, JsField.gtB]
  | num n =>
      constructor
      · rintro ⟨a, b⟩ k hk
        cases hk
        simp only [JsField.ltB, JsField.gtB, decide_eq_false_iff_not,
          not_lt] at a b
        exact ⟨a, b⟩
      · intro hall
        have hb := hall n rfl
        simp only [JsField.ltB, JsField.gtB, decide_eq_false_iff_not, not_lt]
        omega

/-- `validateInputs` as a conjunction of the emptiness checks and the five
range checks. -/
theorem validateInputs_iff (y m d h mi : JsField) :
    validateInputs y m d h mi = true ↔
      (y.isEmpty = false ∧ m.isEmpty = false ∧ d.isEmpty = false ∧
       h.isEmpty = false ∧ mi.isEmpty = false ∧
       (∀ n, y = .num n → 1900 ≤ n ∧ n ≤ 2100) ∧
       (∀ n, m = .num n → 1 ≤ n ∧ n ≤ 12) ∧
       (∀ n, d = .num n → 1 ≤ n ∧ n ≤ 31) ∧
       (∀ n, h = .num n → 0 ≤ n ∧ n ≤ 23) ∧
       (∀ n, mi = .num n → 0 ≤ n ∧ n ≤ 59)) := by
  rw [← rangeCheck_iff y 1900 2100, ← rangeCheck_iff m 1 12,
      ← rangeCheck_iff d 1 31, ← rangeCheck_iff h 0 23,
      ← rangeCheck_iff mi 0 59]
  unfold validateInputs
  split_ifs with h1 h2 h3 h4 h5 h6 <;> simp_all <;> intros <;> simp_all

/-- C10 counterexample: the claim says `validateInputs` returns true iff all
five fields are non-empty **and parse to integers** in their ranges.  With
`year` a non-empty non-numeric string (`parseInt` yields `NaN`, and `NaN <
1900`, `NaN > 2100` are both false in JS) and the other fields valid,
`validateInputs` returns true although `year` parses to no integer, so the
stated equivalence fails. -/
theorem C10_counterexample :
    validateInputs .nan (.num 6) (.num 15) (.num 10) (.num 30) = true ∧
    ¬ claimedValid .nan (.num 6) (.num 15) (.num 10) (.num 30) := by
  constructor
  · rfl
  · decide

/-- C10 (amended): `handleSubmit` issues the four API calls iff
`validateInputs` returns true, i.e. iff all of year, month, day, hour and
minute are non-empty and **every field that parses to an integer** lies in
its range (year in [1900,2100], month in [1,12], day in [1,31], hour in
[0,23], minute in [0,59]) — a non-empty field whose `parseInt` is `NaN`
passes its range check, because comparisons against `NaN` are false; when
any check fails an alert is shown and no network request is made, and
latitude/longitude are never validated client-side (the submit decision is
the same for every city). -/
theorem C10_validation (pFloat : String → ℚ) (y m d h mi : JsField)
    (city city' : City) :
    (validateInputs y m d h mi = true ↔
      (y.isEmpty = false ∧ m.isEmpty = false ∧ d.isEmpty = false ∧
       h.isEmpty = false ∧ mi.isEmpty = false ∧
       (∀ n, y = .num n → 1900 ≤ n ∧ n ≤ 2100) ∧
       (∀ n, m = .num n → 1 ≤ n ∧ n ≤ 12) ∧
       (∀ n, d = .num n → 1 ≤ n ∧ n ≤ 31) ∧
       (∀ n, h = .num n → 0 ≤ n ∧ n ≤ 23) ∧
       (∀ n, mi = .num n → 0 ≤ n ∧ n ≤ 59))) ∧
    ((∃ b, handleSubmit pFloat y m d h mi city = .requested b) ↔
      validateInputs y m d h mi = true) ∧
    (handleSubmit pFloat y m d h mi city = .alerted ↔
      validateInputs y m d h mi = false) ∧
    ((handleSubmit pFloat y m d h mi city = .alerted) ↔
      (handleSubmit pFloat y m d h mi city' = .alerted)) := by
  refine ⟨(validateInputs_iff y m d h mi), ?_, ?_, ?_⟩
  · unfold handleSubmit
    by_cases hv : validateInputs y m d h mi <;> simp [hv]
  · unfold handleSubmit
    by_cases hv : validateInputs y m d h mi <;> simp [hv]
  · unfold handleSubmit
    by_cases hv : validateInputs y m d h mi <;> simp [hv]

/-- Witness for C10: the amended theorem applied at a concrete valid input
shows the request is issued, and at a concrete invalid input (month 13)
shows the alert. -/
theorem C10_validation_witness :
    validateInputs (.num 1990) (.num 6) (.num 15) (.num 10) (.num 30)
      = true ∧
    handleSubmit (fun _ => 0) (.num 1990) (.num 13) (.num 15) (.num 10)
      (.num 30) { name := "New Delhi", lat := "28.6139", lon := "77.2090" }
      = .alerted := by
  have h1 := C10_validation (fun _ => 0) (.num 1990) (.num 6) (.num 15)
    (.num 10) (.num 30)
    { name := "New Delhi", lat := "28.6139", lon := "77.2090" }
    { name := "New Delhi", lat := "28.6139", lon := "77.2090" }
  have h2 := C10_validation (fun _ => 0) (.num 1990) (.num 13) (.num 15)
    (.num 10) (.num 30)
    { name := "New Delhi", lat := "28.6139", lon := "77.2090" }
    { name := "New Delhi", lat := "28.6139", lon := "77.2090" }
  constructor
  · exact h1.1.mpr ⟨rfl, rfl, rfl, rfl, rfl,
      fun n hn => by cases hn; omega, fun n hn => by cases hn; omega,
      fun n hn => by cases hn; omega, fun n hn => by cases hn; omega,
      fun n hn => by cases hn; omega⟩
  · exact h2.2.2.1.mpr (by decide)

/-! ### C3: final transit status vs. Vedha obstruction

The transit aggregation itself runs in the backend, which is not part of the
repository; the clients only consume its output (`TransitAnalysis.js` line
423 renders the Vedha warning iff `result.vedha.is_obstructed`). -/

/-- Vedha layer output of a transit evaluation (`vedha` in the rendered
results). -/
structure VedhaInfo where
  is_obstructed : Bool
  obstructing_planet : Option String
  deriving DecidableEq

/-- Final status of a per-planet transit evaluation.  The spec's enum is
Good | Bad | Obstructed; the iOS `getStatusColor` also accepts a `Neutral`
label, used here for a zero score. -/
inductive FinalStatus where
  | Good
  | Bad
  | Obstructed
  | Neutral
  deriving DecidableEq

/-- Modelled from the spec: the backend transit aggregation step (spec §4.5,
"final status = Good/Bad/Obstructed, where Obstructed strictly requires
Vedha's obstruction condition regardless of numeric score sign. Score sign
alone determines Good vs Bad when not obstructed"); the backend source is
not in the repository. -/
def computeFinalStatus (score : Int) (vedha : VedhaInfo) : FinalStatus :=
  if vedha.is_obstructed then .Obstructed
  else if 0 < score then .Good
  else if score < 0 then .Bad
  else .Neutral

/-- A transit result row as rendered by the clients. -/
structure TransitRow where
  planet : String
  score : Int
  vedha : VedhaInfo
  deriving DecidableEq

/-- The Vedha-warning guard of `TransitAnalysis.js` (line 423):
`result.vedha.is_obstructed && <warning>`. -/
def rendersVedhaWarning (r : TransitRow) : Bool :=
  r.vedha.is_obstructed

/-- C3: `final_status` is `Obstructed` iff `vedha.is_obstructed` is true,
and when `is_obstructed` is false the status is `Good` exactly when the
signed score is positive and `Bad` exactly when it is negative; the web
client renders the Vedha warning exactly on the obstructed results. -/
theorem C3_final_status (score : Int) (vedha : VedhaInfo) (r : TransitRow) :
    (computeFinalStatus score vedha = .Obstructed ↔
      vedha.is_obstructed = true) ∧
    (vedha.is_obstructed = false →
      ((computeFinalStatus score vedha = .Good ↔ 0 < score) ∧
       (computeFinalStatus score vedha = .Bad ↔ score < 0))) ∧
    (rendersVedhaWarning r = true ↔
      computeFinalStatus r.score r.vedha = .Obstructed) := by
  refine ⟨?_, ?_, ?_⟩
  · unfold computeFinalStatus
    by_cases hv : vedha.is_obstructed <;> simp [hv] <;>
      split_ifs <;> simp
  · intro hv
    unfold computeFinalStatus
    rw [hv]
    constructor <;> (split_ifs <;> simp_all <;> omega)
  · unfold rendersVedhaWarning computeFinalStatus
    by_cases hv : r.vedha.is_obstructed <;> simp [hv] <;>
      split_ifs <;> simp

/-- Witness for C3: the theorem applied at a concrete unobstructed
positive-score evaluation. -/
theorem C3_final_status_witness :
    computeFinalStatus 5 { is_obstructed := false, obstructing_planet := none }
      = .Good := by
  have h := C3_final_status 5
    { is_obstructed := false, obstructing_planet := none }
    { planet := "Jupiter", score := 5,
      vedha := { is_obstructed := false, obstructing_planet := none } }
  exact ((h.2.1 rfl).1).mpr (by decide)

/-! ### C7: house strength percentage and level bands

The house strength computation runs in the backend, which is not part of the
repository; `HouseInterpretation.js` (lines 251-260) expects exactly the five
level names "Very Weak" … "Very Strong". -/

/-- `getStrengthColor` of `HouseInterpretation.js` (lines 251-260): colour by
level name, `#888` for anything else. -/
def webHouseStrengthColor (level : String) : String :=
  if level = "Very Strong" then "#4caf50"
  else if level = "Strong" then "#8bc34a"
  else if level = "Average" then "#ffc107"
  else if level = "Weak" then "#ff9800"
  else if level = "Very Weak" then "#f44336"
  else "#888"

/-- Modelled from the spec: the backend clamps the raw derived house score
to the bounded 0-100 percentage (spec §4.2, "percentage strength … mapped to
the 5-level band via fixed cutoffs"); the backend source is not in the
repository. -/
def clampPct (raw : ℚ) : ℚ := max 0 (min 100 raw)

/-- Modelled from the spec: the fixed, monotonic, non-overlapping cutoffs
discretizing a percentage into the 5 ordered bands (spec §3 HouseRecord and
§4.2); the backend source is not in the repository, so the concrete cutoff
values 80/60/40/20 are a documented configuration choice. -/
def levelOf (p : ℚ) : String :=
  if p ≥ 80 then "Very Strong"
  else if p ≥ 60 then "Strong"
  else if p ≥ 40 then "Average"
  else if p ≥ 20 then "Weak"
  else "Very Weak"

/-- Modelled from the spec: the strength record `{level, percentage}` of a
house, derived from the house's raw score; the same clamp and cutoffs are
applied to every house number. -/
def houseStrength (_houseNumber : ℕ) (raw : ℚ) : ℚ × String :=
  (clampPct raw, levelOf (clampPct raw))

/-- C7: for every house and every raw score, `strength.percentage` lies in
[0,100]; `strength.level` is determined from the percentage by fixed,
monotonic, non-overlapping cutoffs that partition [0,100] into the 5 ordered
bands, the same cutoffs for every house; and the web client's colour map
recognises every produced level name. -/
theorem C7_house_strength_bands (houseNumber houseNumber' : ℕ) (raw : ℚ) :
    (0 ≤ (houseStrength houseNumber raw).1 ∧
      (houseStrength houseNumber raw).1 ≤ 100) ∧
    (houseStrength houseNumber raw).2 = levelOf (houseStrength houseNumber raw).1 ∧
    houseStrength houseNumber raw = houseStrength houseNumber' raw ∧
    (∀ p : ℚ, (levelOf p = "Very Strong" ↔ 80 ≤ p) ∧
              (levelOf p = "Strong" ↔ 60 ≤ p ∧ p < 80) ∧
              (levelOf p = "Average" ↔ 40 ≤ p ∧ p < 60) ∧
              (levelOf p = "Weak" ↔ 20 ≤ p ∧ p < 40) ∧
              (levelOf p = "Very Weak" ↔ p < 20)) ∧
    webHouseStrengthColor (houseStrength houseNumber raw).2 ≠ "#888" := by
  refine ⟨⟨le_max_left 0 _, ?_⟩, rfl, rfl, ?_, ?_⟩
  · exact max_le (by norm_num) (min_le_left 100 raw)
  · intro p
    unfold levelOf
    split_ifs <;>
      refine ⟨?_, ?_, ?_, ?_, ?_⟩ <;>
      simp <;>
      first
        | linarith
        | (intro; linarith)
        | (constructor <;> intro <;> linarith)
        | (constructor <;> linarith)
  · unfold houseStrength webHouseStrengthColor levelOf
    split_ifs <;> simp_all

/-! ### C8: determinism of `calculateChart`

The chart calculation runs in the backend, which is not part of the
repository.  It is modelled from spec §4.1 ("given BirthInput, returns
ChartSnapshot.planets + ascendant deterministically — same input always
yields bit-identical output (pure function over astronomical ephemeris +
fixed ayanamsa offset)") as a pure function of the birth input and an
explicitly passed ephemeris. -/

/-- The birth input of a chart request. -/
structure BirthInput where
  year : Int
  month : Int
  day : Int
  hour : Int
  minute : Int
  second : Int
  lat : ℚ
  lon : ℚ
  ayanamsa : String
  deriving DecidableEq

/-- Reduce a longitude to `[0, 360)`. -/
def qmod360 (x : ℚ) : ℚ := x - 360 * ⌊x / 360⌋

/-- Zodiac sign (1-12) of a reduced longitude. -/
def signOf (lon : ℚ) : ℕ := (⌊lon / 30⌋).toNat + 1

/-- Nakshatra (1-27) of a reduced longitude. -/
def nakOf (lon : ℚ) : ℕ := (⌊lon * 27 / 360⌋).toNat + 1

/-- Whole-sign house (1-12) of a sign counted from the ascendant sign. -/
def houseOf (ascSign sign : ℕ) : ℕ := (sign + 12 - ascSign) % 12 + 1

/-- A resolved position (planet or ascendant). -/
structure PlanetPosition where
  longitude : ℚ
  sign : ℕ
  nakshatra : ℕ
  house : ℕ
  deriving DecidableEq

/-- Modelled from the spec: sidereal resolution of one body — tropical
ephemeris longitude minus the fixed ayanamsa offset, reduced to `[0,360)`,
with sign, nakshatra and whole-sign house derived from it (spec §4.1); the
backend source is not in the repository. -/
def resolveBody (tropical offset : ℚ) (ascSign : ℕ) : PlanetPosition :=
  let lon := qmod360 (tropical - offset)
  { longitude := lon
    sign := signOf lon
    nakshatra := nakOf lon
    house := houseOf ascSign (signOf lon) }

/-- Modelled from the spec: the fixed offset of the requested ayanamsa
system (spec §4.1, "fixed ayanamsa offset"). -/
def ayanamsaOffset (system : String) : ℚ :=
  if system = "lahiri" then 24 else 0

/-- The chart snapshot returned to the clients. -/
structure ChartSnapshot where
  ascendant : PlanetPosition
  planets : List PlanetPosition
  deriving DecidableEq

/-- Modelled from the spec: `calculateChart` (spec §4.1 and §6,
`POST /chart/calculate`) — validate coordinates, subtract the fixed ayanamsa
offset from each tropical longitude supplied by the ephemeris, and derive
the ascendant and the 9 planet positions; the backend source is not in the
repository.  The ephemeris is an explicit functional argument (an external,
trusted input supplier per spec §1). -/
def calculateChart (eph : BirthInput → Fin 9 → ℚ) (ascEph : BirthInput → ℚ)
    (b : BirthInput) : Except String ChartSnapshot :=
  if b.lat < -90 ∨ 90 < b.lat ∨ b.lon < -180 ∨ 180 < b.lon then
    .error "InvalidInput"
  else
    let off := ayanamsaOffset b.ayanamsa
    let ascLon := qmod360 (ascEph b - off)
    let ascSign := signOf ascLon
    .ok { ascendant :=
            { longitude := ascLon, sign := ascSign, nakshatra := nakOf ascLon,
              house := 1 }
          planets := (List.finRange 9).map
            (fun i => resolveBody (eph b i) off ascSign) }

/-- C8: `calculateChart` is deterministic — it is a pure function of the
birth input and the ephemeris, so repeated calls with the same input return
identical output, and any two field-wise equal birth inputs return identical
output (all planet positions, ascendant and derived fields equal). -/
theorem C8_chart_deterministic (eph : BirthInput → Fin 9 → ℚ)
    (ascEph : BirthInput → ℚ) (b b' : BirthInput) :
    calculateChart eph ascEph b = calculateChart eph ascEph b ∧
    (b.year = b'.year → b.month = b'.month → b.day = b'.day →
     b.hour = b'.hour → b.minute = b'.minute → b.second = b'.second →
     b.lat = b'.lat → b.lon = b'.lon → b.ayanamsa = b'.ayanamsa →
     calculateChart eph ascEph b = calculateChart eph ascEph b') := by
  refine ⟨rfl, ?_⟩
  intro h1 h2 h3 h4 h5 h6 h7 h8 h9
  have hb : b = b' := by
    cases b; cases b'; simp_all
  rw [hb]

/-- Witness for C8: the theorem applied at a concrete ephemeris and two
structurally equal copies of the scenario birth input of spec §8.6. -/
theorem C8_chart_deterministic_witness :
    calculateChart (fun _ _ => 123) (fun _ => 45)
        { year := 1990, month := 6, day := 15, hour := 10, minute := 30,
          second := 0, lat := 28.6139 / 1, lon := 77.2090 / 1,
          ayanamsa := "lahiri" }
      = calculateChart (fun _ _ => 123) (fun _ => 45)
        { year := 1990, month := 6, day := 15, hour := 10, minute := 30,
          second := 0, lat := 28.6139 / 1, lon := 77.2090 / 1,
          ayanamsa := "lahiri" } :=
  (C8_chart_deterministic (fun _ _ => 123) (fun _ => 45)
    { year := 1990, month := 6, day := 15, hour := 10, minute := 30,
      second := 0, lat := 28.6139 / 1, lon := 77.2090 / 1,
      ayanamsa := "lahiri" }
    { year := 1990, month := 6, day := 15, hour := 10, minute := 30,
      second := 0, lat := 28.6139 / 1, lon := 77.2090 / 1,
      ayanamsa := "lahiri" }).2
    rfl rfl rfl rfl rfl rfl rfl rfl rfl

/-! ### C5: timeline best / challenging months

The timeline summary is computed in the backend, which is not part of the
repository; the web client dereferences each listed month index `m` as
`monthly_data[m-1]` (`EnhancedTransitAnalysis.js` lines 971-988). -/

/-- One point of the 12-month timeline as consumed by the client. -/
structure TimelinePoint where
  month : String
  normalized_score : ℚ
  deriving DecidableEq

/-- Index of the earliest maximum of a list of scores (0 for the empty
list): the head wins unless the tail's earliest maximum is strictly
larger. -/
def idxMax : List ℚ → ℕ
  | [] => 0
  | x :: xs =>
    let j := idxMax xs
    match xs.get? j with
    | none => 0
    | some m => if x < m then j + 1 else 0

/-- Index of the earliest minimum of a list of scores (0 for the empty
list): the head wins unless the tail's earliest minimum is strictly
smaller. -/
def idxMin : List ℚ → ℕ
  | [] => 0
  | x :: xs =>
    let j := idxMin xs
    match xs.get? j with
    | none => 0
    | some m => if m < x then j + 1 else 0

/-- `idxMax` points at a value that is a maximum of the list and strictly
exceeds every value at an earlier index. -/
theorem idxMax_spec (l : List ℚ) (hl : l ≠ []) :
    ∃ v, l.get? (idxMax l) = some v ∧ (∀ u ∈ l, u ≤ v) ∧
      ∀ k, k < idxMax l → ∀ u, l.get? k = some u → u < v := by
  induction l with
  | nil => exact absurd rfl hl
  | cons x xs ih =>
    by_cases hxs : xs = []
    · subst hxs
      refine ⟨x, ?_, ?_, ?_⟩
      · rfl
      · intro u hu
        simp only [List.mem_singleton] at hu
        exact le_of_eq hu
      · intro k hk
        simp [idxMax] at hk
    · obtain ⟨v, hv, hmax, hearly⟩ := ih hxs
      have hunfold : idxMax (x :: xs) = if x < v then idxMax xs + 1 else 0 := by
        simp only [idxMax]
        rw [hv]
      by_cases hlt : x < v
      · rw [hunfold, if_pos hlt]
        refine ⟨v, ?_, ?_, ?_⟩
        · simpa using hv
        · intro u hu
          rcases List.mem_cons.mp hu with h | h
          · exact h ▸ le_of_lt hlt
          · exact hmax u h
        · intro k hk u hu
          cases k with
          | zero =>
              simp only [List.get?] at hu
              cases hu
              exact hlt
          | succ k' =>
              simp only [List.get?] at hu
              exact hearly k' (Nat.lt_of_succ_lt_succ hk) u hu
      · rw [hunfold, if_neg hlt]
        refine ⟨x, rfl, ?_, ?_⟩
        · intro u hu
          rcases List.mem_cons.mp hu with h | h
          · exact le_of_eq h
          · exact le_trans (hmax u h) (le_of_not_lt hlt)
        · intro k hk
          exact absurd hk (Nat.not_lt_zero k)

/-- `idxMin` points at a value that is a minimum of the list and is
strictly below every value at an earlier index. -/
theorem idxMin_spec (l : List ℚ) (hl : l ≠ []) :
    ∃ v, l.get? (idxMin l) = some v ∧ (∀ u ∈ l, v ≤ u) ∧
      ∀ k, k < idxMin l → ∀ u, l.get? k = some u → v < u := by
  induction l with
  | nil => exact absurd rfl hl
  | cons x xs ih =>
    by_cases hxs : xs = []
    · subst hxs
      refine ⟨x, ?_, ?_, ?_⟩
      · rfl
      · intro u hu
        simp only [List.mem_singleton] at hu
        exact le_of_eq hu.symm
      · intro k hk
        simp [idxMin] at hk
    · obtain ⟨v, hv, hmin, hearly⟩ := ih hxs
      have hunfold : idxMin (x :: xs) = if v < x then idxMin xs + 1 else 0 := by
        simp only [idxMin]
        rw [hv]
      by_cases hlt : v < x
      · rw [hunfold, if_pos hlt]
        refine ⟨v, ?_, ?_, ?_⟩
        · simpa using hv
        · intro u hu
          rcases List.mem_cons.mp hu with h | h
          · exact h ▸ le_of_lt hlt
          · exact hmin u h
        · intro k hk u hu
          cases k with
          | zero =>
              simp only [List.get?] at hu
              cases hu
              exact hlt
          | succ k' =>
              simp only [List.get?] at hu
              exact hearly k' (Nat.lt_of_succ_lt_succ hk) u hu
      · rw [hunfold, if_neg hlt]
        refine ⟨x, rfl, ?_, ?_⟩
        · intro u hu
          rcases List.mem_cons.mp hu with h | h
          · exact le_of_eq h.symm
          · exact le_trans (le_of_not_lt hlt) (hmin u h)
        · intro k hk
          exact absurd hk (Nat.not_lt_zero k)

/-- `idxMax` of a non-empty list is a valid index. -/
theorem idxMax_lt_length (l : List ℚ) (hl : l ≠ []) : idxMax l < l.length := by
  obtain ⟨v, hv, -, -⟩ := idxMax_spec l hl
  exact List.get?_eq_some.mp hv |>.choose

/-- `idxMin` of a non-empty list is a valid index. -/
theorem idxMin_lt_length (l : List ℚ) (hl : l ≠ []) : idxMin l < l.length := by
  obtain ⟨v, hv, -, -⟩ := idxMin_spec l hl
  exact List.get?_eq_some.mp hv |>.choose

/-- Modelled from the spec: `summary.best_months` of a timeline response —
the 1-based position of the month attaining the maximum `normalized_score`,
ties broken by the earliest month (spec §4.5 and §8.5); the backend source
is not in the repository. -/
def bestMonths (pts : List TimelinePoint) : List ℕ :=
  if pts.isEmpty then []
  else [idxMax (pts.map (·.normalized_score)) + 1]

/-- Modelled from the spec: `summary.challenging_months` of a timeline
response — the 1-based position of the month attaining the minimum
`normalized_score`, ties broken by the earliest month; the backend source is
not in the repository. -/
def challengingMonths (pts : List TimelinePoint) : List ℕ :=
  if pts.isEmpty then []
  else [idxMin (pts.map (·.normalized_score)) + 1]

/-- The client dereference `timelineData.monthly_data[m-1]`
(`EnhancedTransitAnalysis.js` lines 972 and 985). -/
def clientMonthLookup (pts : List TimelinePoint) (m : ℕ) :
    Option TimelinePoint :=
  pts.get? (m - 1)

/-- C5: for a 12-point timeline, every index listed in `best_months`
(respectively `challenging_months`) is a 1-based position within
`monthly_data`, and the client dereference `monthly_data[m-1]` yields a
month whose `normalized_score` is the maximum (respectively minimum) of the
12 points, with every strictly earlier month scoring strictly less
(respectively more) — ties broken by the earliest month. -/
theorem C5_timeline_summary (pts : List TimelinePoint)
    (hlen : pts.length = 12) :
    (∀ m ∈ bestMonths pts, 1 ≤ m ∧ m ≤ 12 ∧
      ∃ p, clientMonthLookup pts m = some p ∧
        (∀ q ∈ pts, q.normalized_score ≤ p.normalized_score) ∧
        ∀ k, k < m - 1 → ∀ q, pts.get? k = some q →
          q.normalized_score < p.normalized_score) ∧
    (∀ m ∈ challengingMonths pts, 1 ≤ m ∧ m ≤ 12 ∧
      ∃ p, clientMonthLookup pts m = some p ∧
        (∀ q ∈ pts, p.normalized_score ≤ q.normalized_score) ∧
        ∀ k, k < m - 1 → ∀ q, pts.get? k = some q →
          p.normalized_score < q.normalized_score) := by
  have hne : pts ≠ [] := by
    intro h
    rw [h] at hlen
    simp at hlen
  have hmapne : pts.map (·.normalized_score) ≠ [] := by
    simpa using hne
  have hmaplen : (pts.map (·.normalized_score)).length = 12 := by
    simpa using hlen
  constructor
  · intro m hm
    have hm' : m = idxMax (pts.map (·.normalized_score)) + 1 := by
      simpa [bestMonths, List.isEmpty_iff, hne] using hm
    subst hm'
    obtain ⟨v, hv, hmax, hearly⟩ := idxMax_spec _ hmapne
    have hidx : idxMax (pts.map (·.normalized_score)) < 12 := by
      have := idxMax_lt_length _ hmapne
      omega
    obtain ⟨p, hp, hpv⟩ :
        ∃ p, pts.get? (idxMax (pts.map (·.normalized_score))) = some p ∧
          p.normalized_score = v := by
      rw [List.get?_map] at hv
      cases hget : pts.get? (idxMax (pts.map (·.normalized_score))) with
      | none => rw [hget] at hv; cases hv
      | some p =>
          rw [hget] at hv
          exact ⟨p, rfl, by injection hv⟩
    refine ⟨by omega, by omega, p, ?_, ?_, ?_⟩
    · simpa [clientMonthLookup] using hp
    · intro q hq
      rw [hpv]
      exact hmax q.normalized_score (List.mem_map_of_mem _ hq)
    · intro k hk q hq
      rw [hpv]
      refine hearly k (by omega) q.normalized_score ?_
      rw [List.get?_map, hq]
      rfl
  · intro m hm
    have hm' : m = idxMin (pts.map (·.normalized_score)) + 1 := by
      simpa [challengingMonths, List.isEmpty_iff, hne] using hm
    subst hm'
    obtain ⟨v, hv, hmin, hearly⟩ := idxMin_spec _ hmapne
    have hidx : idxMin (pts.map (·.normalized_score)) < 12 := by
      have := idxMin_lt_length _ hmapne
      omega
    obtain ⟨p, hp, hpv⟩ :
        ∃ p, pts.get? (idxMin (pts.map (·.normalized_score))) = some p ∧
          p.normalized_score = v := by
      rw [List.get?_map] at hv
      cases hget : pts.get? (idxMin (pts.map (·.normalized_score))) with
      | none => rw [hget] at hv; cases hv
      | some p =>
          rw [hget] at hv
          exact ⟨p, rfl, by injection hv⟩
    refine ⟨by omega, by omega, p, ?_, ?_, ?_⟩
    · simpa [clientMonthLookup] using hp
    · intro q hq
      rw [hpv]
      exact hmin q.normalized_score (List.mem_map_of_mem _ hq)
    · intro k hk q hq
      rw [hpv]
      refine hearly k (by omega) q.normalized_score ?_
      rw [List.get?_map, hq]
      rfl

/-- A concrete 12-month timeline whose third month attains the unique
maximum score. -/
def ptsExample : List TimelinePoint :=
  [{ month := "January", normalized_score := 10 },
   { month := "February", normalized_score := 20 },
   { month := "March", normalized_score := 99 },
   { month := "April", normalized_score := 30 },
   { month := "May", normalized_score := 40 },
   { month := "June", normalized_score := 50 },
   { month := "July", normalized_score := 60 },
   { month := "August", normalized_score := 70 },
   { month := "September", normalized_score := 80 },
   { month := "October", normalized_score := 90 },
   { month := "November", normalized_score := 5 },
   { month := "December", normalized_score := 15 }]

/-- Witness for C5: the theorem applied to the concrete 12-point timeline,
at the listed best month 3; the client lookup `monthly_data[3-1]` succeeds. -/
theorem C5_timeline_summary_witness :
    (clientMonthLookup ptsExample 3).isSome = true := by
  have h := C5_timeline_summary ptsExample (by rfl)
  have hmem : 3 ∈ bestMonths ptsExample := by decide
  obtain ⟨-, -, p, hp, -, -⟩ := h.1 3 hmem
  rw [hp]
  rfl

/-! ### C6: Vimshottari dasha partition

The dasha engine runs in the backend, which is not part of the repository;
the clients only render its `mahadashas` / `antardashas` output
(`src/unnamed/part_002` lines 63-95, `src/kundali-ios/src/types/index.ts`
lines 44-58).  It is modelled from spec §4.4: the fixed 9-planet sequence
with catalog durations, a first mahadasha shortened by the balance already
elapsed before birth, a cyclic walk truncated at the 120-year horizon, and
antardashas subdividing a mahadasha proportionally by the same
120-year-cycle ratios re-anchored to the mahadasha's start. -/

/-- The fixed Vimshottari sequence with catalog durations (years); the nine
durations sum to 120. -/
def vimshottariSeq : List (String × ℚ) :=
  [("Ketu", 7), ("Venus", 20), ("Sun", 6), ("Moon", 10), ("Mars", 7),
   ("Rahu", 18), ("Jupiter", 16), ("Saturn", 19), ("Mercury", 17)]

/-- Lord of the `k`-th position of the cyclic sequence. -/
def vPlanet (k : ℕ) : String :=
  ((vimshottariSeq.get? (k % 9)).map Prod.fst).getD "Ketu"

/-- Catalog duration (years) of the `k`-th position of the cyclic
sequence. -/
def vYears (k : ℕ) : ℚ :=
  ((vimshottariSeq.get? (k % 9)).map Prod.snd).getD 0

/-- A dasha period: ruling planet, start (years after birth) and
duration (years). -/
structure DashaPeriod where
  planet : String
  start : ℚ
  duration : ℚ
  deriving DecidableEq

/-- Sum of the first `j` catalog durations starting at position `k`. -/
def psum (k j : ℕ) : ℚ := ((List.range j).map (fun i => vYears (k + i))).sum

/-- Modelled from the spec: the mahadasha durations returned for a birth
whose Moon sits in the nakshatra ruled by sequence position `k` with
fraction `f` of that lord's period already elapsed (spec §4.4): a first
period of `(1-f)` of the lord's years, the next eight full catalog periods,
and, when `f ≠ 0`, a final truncated period of the starting lord closing
the 120-year horizon; the backend source is not in the repository. -/
def mdDurations (k : ℕ) (f : ℚ) : List (String × ℚ) :=
  ((vPlanet k, (1 - f) * vYears k) ::
      (List.range 8).map (fun i => (vPlanet (k + 1 + i), vYears (k + 1 + i)))) ++
    (if f = 0 then [] else [(vPlanet k, f * vYears k)])

/-- Modelled from the spec: the antardashas of a mahadasha of lord position
`k`, start `s` and duration `D` — nine sub-periods in cyclic order from the
parent's own lord, each `D · catalogYears / 120` long, re-anchored to the
parent's start (spec §4.4); the backend source is not in the repository. -/
def antardashas (k : ℕ) (s D : ℚ) : List DashaPeriod :=
  (List.range 9).map (fun j =>
    { planet := vPlanet (k + j)
      start := s + D * psum k j / 120
      duration := D * vYears (k + j) / 120 })

/-- Every catalog duration is nonnegative. -/
theorem vYears_nonneg (k : ℕ) : 0 ≤ vYears k := by
  unfold vYears vimshottariSeq
  have h9 : k % 9 < 9 := Nat.mod_lt _ (by norm_num)
  set r := k % 9 with hr
  interval_cases r <;> norm_num

/-- Shifting the starting position by a full cycle step:
`vYears` only depends on the position modulo 9. -/
theorem vYears_shift (k i : ℕ) : vYears (k + i) = vYears (k % 9 + i) := by
  unfold vYears
  have h : (k + i) % 9 = (k % 9 + i) % 9 := by omega
  rw [h]

/-- One cyclic turn of the catalog from any starting position sums to the
full 120-year Vimshottari cycle. -/
theorem psum_cycle (k : ℕ) : psum k 9 = 120 := by
  unfold psum
  have hmap : (List.range 9).map (fun i => vYears (k + i))
      = (List.range 9).map (fun i => vYears (k % 9 + i)) :=
    List.map_congr_left (fun i _ => vYears_shift k i)
  rw [hmap]
  have h9 : k % 9 < 9 := Nat.mod_lt _ (by norm_num)
  set r := k % 9 with hr
  interval_cases r <;>
    (simp [List.range_succ, vYears, vimshottariSeq]; norm_num)

/-- Peeling one term off a partial catalog sum. -/
theorem psum_succ (k j : ℕ) : psum k (j + 1) = psum k j + vYears (k + j) := by
  unfold psum
  rw [List.range_succ, List.map_append, List.sum_append]
  simp

/-- Partial catalog sums are nonnegative. -/
theorem psum_nonneg (k j : ℕ) : 0 ≤ psum k j := by
  refine List.sum_nonneg ?_
  intro x hx
  obtain ⟨i, -, rfl⟩ := List.mem_map.mp hx
  exact vYears_nonneg _

/-- Partial catalog sums are monotone in the length. -/
theorem psum_mono (k : ℕ) {i j : ℕ} (h : i ≤ j) : psum k i ≤ psum k j := by
  induction j with
  | zero =>
      cases Nat.le_zero.mp h
      exact le_refl _
  | succ j ih =>
      rcases Nat.lt_or_ge i (j + 1) with hij | hij
      · calc psum k i ≤ psum k j := ih (Nat.lt_succ_iff.mp hij)
          _ ≤ psum k (j + 1) := by
              rw [psum_succ]
              have := vYears_nonneg (k + j)
              linarith
      · have : i = j + 1 := le_antisymm h hij
        rw [this]

/-- Factoring a constant out of a mapped list sum. -/
theorem sum_map_mul (c : ℚ) (g : ℕ → ℚ) (l : List ℕ) :
    (l.map (fun j => c * g j)).sum = c * (l.map g).sum := by
  induction l with
  | nil => simp
  | cons a l ih =>
      simp only [List.map_cons, List.sum_cons, ih]
      ring

/-- Peeling the first term off a partial catalog sum. -/
theorem psum_shift (k j : ℕ) : psum k (j + 1) = vYears k + psum (k + 1) j := by
  induction j with
  | zero =>
      rw [psum_succ]
      simp [psum]
  | succ j ih =>
      rw [psum_succ, ih, psum_succ]
      have h : vYears (k + (j + 1)) = vYears (k + 1 + j) := by
        congr 1
        omega
      rw [h]
      ring

/-- The mahadasha durations always sum to exactly 120 years. -/
theorem mdDurations_sum (k : ℕ) (f : ℚ) :
    ((mdDurations k f).map Prod.snd).sum = 120 := by
  have hsplit : psum k 9 = vYears k + psum (k + 1) 8 := psum_shift k 8
  have htotal : vYears k + psum (k + 1) 8 = 120 := by
    rw [← hsplit]
    exact psum_cycle k
  unfold psum at htotal
  unfold mdDurations
  by_cases hf : f = 0
  · rw [if_pos hf, hf]
    simp only [List.append_nil, List.map_cons, List.sum_cons, List.map_map,
      Function.comp_def]
    linear_combination htotal
  · rw [if_neg hf]
    simp only [List.map_append, List.map_cons, List.sum_append, List.sum_cons,
      List.map_map, List.map_nil, List.sum_nil, Function.comp_def]
    linear_combination htotal

/-- The `j`-th antardasha of a mahadasha, in closed form. -/
theorem antardashas_get (k : ℕ) (s D : ℚ) (j : ℕ) (hj : j < 9) :
    (antardashas k s D).get? j =
      some { planet := vPlanet (k + j)
             start := s + D * psum k j / 120
             duration := D * vYears (k + j) / 120 } := by
  unfold antardashas
  rw [List.get?_map, List.get?_range hj]
  rfl

/-- C6: the mahadasha durations sum to exactly 120 years over the full
Vimshottari cycle and, for a mahadasha of lord position `k`, start `s` and
nonnegative duration `D` carrying an antardashas list, the nine antardashas
are contiguous within the parent's date range — the first starts at `s`,
each next one starts where the previous ends, the last ends at `s + D`,
every sub-period stays inside `[s, s + D]` — and their durations sum to the
parent's duration (exactly, hence within the 1e-6 tolerance). -/
theorem C6_dasha_partition (k : ℕ) (f s D : ℚ) (hD : 0 ≤ D) :
    ((mdDurations k f).map Prod.snd).sum = 120 ∧
    ((antardashas k s D).map DashaPeriod.duration).sum = D ∧
    |((antardashas k s D).map DashaPeriod.duration).sum - D| < 1 / 1000000 ∧
    (antardashas k s D).length = 9 ∧
    (∀ j, j < 8 → ∀ p q, (antardashas k s D).get? j = some p →
      (antardashas k s D).get? (j + 1) = some q →
      p.start + p.duration = q.start) ∧
    (∀ p, (antardashas k s D).get? 0 = some p → p.start = s) ∧
    (∀ p, (antardashas k s D).get? 8 = some p → p.start + p.duration = s + D) ∧
    (∀ p ∈ antardashas k s D, 0 ≤ p.duration ∧ s ≤ p.start ∧
      p.start + p.duration ≤ s + D) := by
  have hsum : ((antardashas k s D).map DashaPeriod.duration).sum = D := by
    unfold antardashas
    rw [List.map_map]
    have hfun : (DashaPeriod.duration ∘ fun j =>
        ({ planet := vPlanet (k + j), start := s + D * psum k j / 120,
           duration := D * vYears (k + j) / 120 } : DashaPeriod))
        = fun j => (D / 120) * vYears (k + j) := by
      funext j
      simp only [Function.comp_apply]
      ring
    rw [hfun, sum_map_mul]
    have : ((List.range 9).map (fun j => vYears (k + j))).sum = psum k 9 := rfl
    rw [this, psum_cycle]
    ring
  refine ⟨mdDurations_sum k f, hsum, ?_, ?_, ?_, ?_, ?_, ?_⟩
  · rw [hsum]
    norm_num
  · unfold antardashas
    simp
  · intro j hj p q hp hq
    rw [antardashas_get k s D j (by omega)] at hp
    rw [antardashas_get k s D (j + 1) (by omega)] at hq
    cases hp
    cases hq
    simp only
    rw [psum_succ]
    ring
  · intro p hp
    rw [antardashas_get k s D 0 (by omega)] at hp
    cases hp
    simp [psum]
  · intro p hp
    rw [antardashas_get k s D 8 (by omega)] at hp
    cases hp
    simp only
    have hp120 : psum k 8 + vYears (k + 8) = 120 :=
      ((psum_succ k 8).symm).trans (psum_cycle k)
    linear_combination (D / 120) * hp120
  · intro p hp
    unfold antardashas at hp
    obtain ⟨j, hj, rfl⟩ := List.mem_map.mp hp
    have hjr : j < 9 := List.mem_range.mp hj
    have hy := vYears_nonneg (k + j)
    have hps := psum_nonneg k j
    have hple : psum k j + vYears (k + j) ≤ 120 := by
      have := psum_mono k (Nat.succ_le_of_lt hjr)
      rw [psum_succ] at this
      rw [psum_cycle] at this
      exact this
    refine ⟨?_, ?_, ?_⟩
    · positivity
    · simp only
      have : 0 ≤ D * psum k j / 120 := by positivity
      linarith
    · simp only
      have key : D * psum k j / 120 + D * vYears (k + j) / 120
          = D * (psum k j + vYears (k + j)) / 120 := by ring
      have hmul : D * (psum k j + vYears (k + j)) ≤ D * 120 :=
        mul_le_mul_of_nonneg_left hple hD
      have hdiv : D * (psum k j + vYears (k + j)) / 120 ≤ D := by linarith
      linarith

/-- Witness for C6: the theorem applied at the concrete first mahadasha of a
Ketu-start chart (`k = 0`, elapsed fraction 1/2, parent span `[0, 3.5]`). -/
theorem C6_dasha_partition_witness :
    ((mdDurations 0 (1/2)).map Prod.snd).sum = 120 ∧
    ((antardashas 0 0 (7/2)).map DashaPeriod.duration).sum = 7/2 :=
  ⟨(C6_dasha_partition 0 (1/2) 0 (7/2) (by norm_num)).1,
   (C6_dasha_partition 0 (1/2) 0 (7/2) (by norm_num)).2.1⟩

end Kundali
